import Mathlib

/-!
A shallow embedding of the core of the `zoltpy` client library
(`zoltpy/csv_io.py` and `zoltpy/connection.py`), together with proofs of
the behavioural properties stated for it.

Python exceptions are modelled with `Except`: a raised exception is an
`Except.error` value carrying the data that the corresponding Python
exception message carries.  Python dicts whose key sets are fixed by the
code are modelled as structures with `Option` fields (a missing key is
`none`); general JSON values are modelled by the inductive type `J`.
-/

/-- A JSON value, as produced by `response.json()` and consumed by the
codec and the resource proxies.  Floating point numbers are not needed by
any property proved here and are not modelled. -/
inductive J where
  | null
  | bool (b : Bool)
  | int (n : Int)
  | str (s : String)
  | arr (elems : List J)
  | obj (kvs : List (String × J))

/-- Python truthiness of a JSON value (`if x:`): `None`, `False`, `0`,
`""`, `[]` and `{}` are falsy, everything else is truthy. -/
def pyTruthy : J → Bool
  | .null => false
  | .bool b => b
  | .int n => n != 0
  | .str s => s != ""
  | .arr elems => !elems.isEmpty
  | .obj kvs => !kvs.isEmpty

/-- Key lookup in a JSON object (`j[key]` yielding `none` for a missing
key; the caller decides whether that is a `KeyError`). -/
def jGet (j : J) (key : String) : Option J :=
  match j with
  | .obj kvs => kvs.lookup key
  | _ => none

/-!
## `zoltpy/csv_io.py`
-/

/-- Errors raised by `csv_rows_from_json_io_dict`.  The source raises
`RuntimeError` with a message; each constructor records one raise site
(or implicit dict/iteration failure) together with the data interpolated
into its message. -/
inductive CsvError where
  | noPredictions
  | formatError (cls : String)
  | keyError (key : String)
  | typeError (key : String)
deriving DecidableEq

/-- A CSV row: a list of cell values. -/
def Row := List J

/-- `CSV_HEADER` from `csv_io.py`: the fixed 12-column header row. -/
def CSV_HEADER : Row :=
  [J.str "unit", J.str "target", J.str "class", J.str "value", J.str "cat",
   J.str "prob", J.str "sample", J.str "quantile", J.str "family",
   J.str "param1", J.str "param2", J.str "param3"]

/-- Modelled from the spec: `BIN_DISTRIBUTION_CLASS` is imported from
`zoltpy/quantile_io.py`, which is not among the available source files;
its value follows the class names of the spec (§4.4) and the literal
membership list in `csv_io.py`. -/
def BIN_DISTRIBUTION_CLASS : String := "bin"

/-- Modelled from the spec: `NAMED_DISTRIBUTION_CLASS` from
`zoltpy/quantile_io.py` (see `BIN_DISTRIBUTION_CLASS`). -/
def NAMED_DISTRIBUTION_CLASS : String := "named"

/-- Modelled from the spec: `POINT_PREDICTION_CLASS` from
`zoltpy/quantile_io.py` (see `BIN_DISTRIBUTION_CLASS`). -/
def POINT_PREDICTION_CLASS : String := "point"

/-- Modelled from the spec: `SAMPLE_PREDICTION_CLASS` from
`zoltpy/quantile_io.py` (see `BIN_DISTRIBUTION_CLASS`). -/
def SAMPLE_PREDICTION_CLASS : String := "sample"

/-- The literal membership list checked at the top of the prediction
loop: `['bin', 'named', 'point', 'sample', 'quantile']`. -/
def VALID_PREDICTION_CLASSES : List String :=
  ["bin", "named", "point", "sample", "quantile"]

/-- The `prediction` payload dict of one prediction entry.  The code only
ever reads the keys below, so the dict is modelled as a structure with
one `Option` field per key (`none` = key absent). -/
structure PredDict where
  cat : Option J := none
  prob : Option J := none
  value : Option J := none
  sample : Option J := none
  quantile : Option J := none
  family : Option J := none
  param1 : Option J := none
  param2 : Option J := none
  param3 : Option J := none

/-- One element of the `predictions` list.  Per the data model (§3) every
entry carries `unit`, `target`, `class` and `prediction` keys; the class
string is arbitrary. -/
structure PredictionDict where
  unit : J
  target : J
  «class» : String
  prediction : PredDict

/-- The top-level "JSON IO dict".  Only the presence and content of the
`predictions` key matter to the code (the `meta` section is ignored). -/
structure JsonIoDict where
  predictions : Option (List PredictionDict)

/-- The empty-string cell to which all class-specific columns default. -/
def emptyS : J := J.str ""

/-- The row built for one `(cat, prob)` pair of a `bin` entry. -/
def binRow (p : PredictionDict) (cp : J × J) : Row :=
  [p.unit, p.target, J.str p.«class», emptyS, cp.1, cp.2, emptyS, emptyS,
   emptyS, emptyS, emptyS, emptyS]

/-- The single row built for a `named` entry. -/
def namedRow (p : PredictionDict) (family p1 p2 p3 : J) : Row :=
  [p.unit, p.target, J.str p.«class», emptyS, emptyS, emptyS, emptyS, emptyS,
   family, p1, p2, p3]

/-- The single row built for a `point` entry. -/
def pointRow (p : PredictionDict) (value : J) : Row :=
  [p.unit, p.target, J.str p.«class», value, emptyS, emptyS, emptyS, emptyS,
   emptyS, emptyS, emptyS, emptyS]

/-- The row built for one element of a `sample` entry. -/
def sampleRow (p : PredictionDict) (s : J) : Row :=
  [p.unit, p.target, J.str p.«class», emptyS, emptyS, emptyS, s, emptyS,
   emptyS, emptyS, emptyS, emptyS]

/-- The row built for one `(quantile, value)` pair of a `quantile`
entry. -/
def quantileRow (p : PredictionDict) (qv : J × J) : Row :=
  [p.unit, p.target, J.str p.«class», qv.2, emptyS, emptyS, emptyS, qv.1,
   emptyS, emptyS, emptyS, emptyS]

/-- The body of the `for prediction_dict in json_io_dict['predictions']`
loop for one entry: the class membership check, then the class dispatch.
Key accesses (`KeyError`) and iteration over a non-list (`TypeError`)
are modelled by the explicit `Except.error` branches, in the evaluation
order of the source.  The final `else` of the source handles `quantile`,
the only remaining member of the literal list. -/
def rowsForPrediction (p : PredictionDict) : Except CsvError (List Row) :=
  let pc := p.«class»
  if pc ∈ VALID_PREDICTION_CLASSES then
    if pc = BIN_DISTRIBUTION_CLASS then
      match p.prediction.cat with
      | none => .error (.keyError "cat")
      | some catJ =>
        match p.prediction.prob with
        | none => .error (.keyError "prob")
        | some probJ =>
          match catJ with
          | .arr cats =>
            match probJ with
            | .arr probs => .ok ((cats.zip probs).map (binRow p))
            | _ => .error (.typeError "prob")
          | _ => .error (.typeError "cat")
    else if pc = NAMED_DISTRIBUTION_CLASS then
      match p.prediction.family with
      | none => .error (.keyError "family")
      | some family =>
        .ok [namedRow p family (p.prediction.param1.getD emptyS)
              (p.prediction.param2.getD emptyS) (p.prediction.param3.getD emptyS)]
    else if pc = POINT_PREDICTION_CLASS then
      match p.prediction.value with
      | none => .error (.keyError "value")
      | some value => .ok [pointRow p value]
    else if pc = SAMPLE_PREDICTION_CLASS then
      match p.prediction.sample with
      | none => .error (.keyError "sample")
      | some sampleJ =>
        match sampleJ with
        | .arr samples => .ok (samples.map (sampleRow p))
        | _ => .error (.typeError "sample")
    else
      match p.prediction.quantile with
      | none => .error (.keyError "quantile")
      | some quantileJ =>
        match p.prediction.value with
        | none => .error (.keyError "value")
        | some valueJ =>
          match quantileJ with
          | .arr quantiles =>
            match valueJ with
            | .arr values => .ok ((quantiles.zip values).map (quantileRow p))
            | _ => .error (.typeError "value")
          | _ => .error (.typeError "quantile")
  else .error (.formatError pc)

/-- The prediction loop of `csv_rows_from_json_io_dict`: rows of each
entry are appended in entry order; a raised error aborts the whole
conversion. -/
def csvRowsLoop : List PredictionDict → Except CsvError (List Row)
  | [] => .ok []
  | p :: rest =>
    match rowsForPrediction p with
    | .error e => .error e
    | .ok rs =>
      match csvRowsLoop rest with
      | .error e => .error e
      | .ok restRows => .ok (rs ++ restRows)

/-- `csv_rows_from_json_io_dict` from `csv_io.py`: the initial
`'predictions' not in json_io_dict` validation, then the header row
followed by the rows of each prediction entry. -/
def csv_rows_from_json_io_dict (d : JsonIoDict) : Except CsvError (List Row) :=
  match d.predictions with
  | none => .error .noPredictions
  | some preds =>
    match csvRowsLoop preds with
    | .error e => .error e
    | .ok rows => .ok (CSV_HEADER :: rows)

/-!
### Well-formedness and row-count bookkeeping for prediction entries

`wellFormedEntry` states that an entry conforms to the payload shape of
its class per §4.4 of the spec (in particular that the `bin` and
`quantile` payloads are *parallel* arrays, i.e. of equal length);
`entryRowCount` is the per-entry row cardinality stated by the spec's
row-count laws. -/

/-- The length of the array held by an optional JSON value (`0` when the
value is absent or not an array; only used under `wellFormedEntry`). -/
def arrLen : Option J → Nat
  | some (.arr elems) => elems.length
  | _ => 0

/-- An entry whose payload has the shape §4.4 requires for its class. -/
def wellFormedEntry (p : PredictionDict) : Bool :=
  if p.«class» = "bin" then
    match p.prediction.cat, p.prediction.prob with
    | some (.arr cats), some (.arr probs) => cats.length == probs.length
    | _, _ => false
  else if p.«class» = "named" then p.prediction.family.isSome
  else if p.«class» = "point" then p.prediction.value.isSome
  else if p.«class» = "sample" then
    match p.prediction.sample with
    | some (.arr _) => true
    | _ => false
  else if p.«class» = "quantile" then
    match p.prediction.quantile, p.prediction.value with
    | some (.arr quantiles), some (.arr values) => quantiles.length == values.length
    | _, _ => false
  else false

/-- Rows contributed by one entry per the spec's row-count laws: the
number of categories / samples / quantiles for `bin` / `sample` /
`quantile`, and exactly `1` for `point` and `named`. -/
def entryRowCount (p : PredictionDict) : Nat :=
  if p.«class» = "bin" then arrLen p.prediction.cat
  else if p.«class» = "sample" then arrLen p.prediction.sample
  else if p.«class» = "quantile" then arrLen p.prediction.quantile
  else 1

lemma rowsForPrediction_bin (p : PredictionDict) (cats probs : List J)
    (hcls : p.«class» = "bin") (hc : p.prediction.cat = some (.arr cats))
    (hp : p.prediction.prob = some (.arr probs)) :
    rowsForPrediction p = .ok ((cats.zip probs).map (binRow p)) := by
  unfold rowsForPrediction
  rw [hcls, hc, hp]
  simp [VALID_PREDICTION_CLASSES, BIN_DISTRIBUTION_CLASS]

lemma rowsForPrediction_named (p : PredictionDict) (family : J)
    (hcls : p.«class» = "named") (hf : p.prediction.family = some family) :
    rowsForPrediction p = .ok [namedRow p family (p.prediction.param1.getD emptyS)
      (p.prediction.param2.getD emptyS) (p.prediction.param3.getD emptyS)] := by
  unfold rowsForPrediction
  rw [hcls, hf]
  simp [VALID_PREDICTION_CLASSES, BIN_DISTRIBUTION_CLASS, NAMED_DISTRIBUTION_CLASS]

lemma rowsForPrediction_point (p : PredictionDict) (value : J)
    (hcls : p.«class» = "point") (hv : p.prediction.value = some value) :
    rowsForPrediction p = .ok [pointRow p value] := by
  unfold rowsForPrediction
  rw [hcls, hv]
  simp [VALID_PREDICTION_CLASSES, BIN_DISTRIBUTION_CLASS, NAMED_DISTRIBUTION_CLASS,
    POINT_PREDICTION_CLASS]

lemma rowsForPrediction_sample (p : PredictionDict) (samples : List J)
    (hcls : p.«class» = "sample") (hs : p.prediction.sample = some (.arr samples)) :
    rowsForPrediction p = .ok (samples.map (sampleRow p)) := by
  unfold rowsForPrediction
  rw [hcls, hs]
  simp [VALID_PREDICTION_CLASSES, BIN_DISTRIBUTION_CLASS, NAMED_DISTRIBUTION_CLASS,
    POINT_PREDICTION_CLASS, SAMPLE_PREDICTION_CLASS]

lemma rowsForPrediction_quantile (p : PredictionDict) (quantiles values : List J)
    (hcls : p.«class» = "quantile") (hq : p.prediction.quantile = some (.arr quantiles))
    (hv : p.prediction.value = some (.arr values)) :
    rowsForPrediction p = .ok ((quantiles.zip values).map (quantileRow p)) := by
  unfold rowsForPrediction
  rw [hcls, hq, hv]
  simp [VALID_PREDICTION_CLASSES, BIN_DISTRIBUTION_CLASS, NAMED_DISTRIBUTION_CLASS,
    POINT_PREDICTION_CLASS, SAMPLE_PREDICTION_CLASS]

lemma rowsForPrediction_invalid (p : PredictionDict)
    (hcls : p.«class» ∉ VALID_PREDICTION_CLASSES) :
    rowsForPrediction p = .error (.formatError p.«class») := by
  unfold rowsForPrediction
  simp [hcls]

/-- A well-formed entry has a valid class string. -/
lemma wellFormedEntry_class_valid (p : PredictionDict)
    (h : wellFormedEntry p = true) : p.«class» ∈ VALID_PREDICTION_CLASSES := by
  unfold wellFormedEntry at h
  by_cases h1 : p.«class» = "bin"
  · simp [VALID_PREDICTION_CLASSES, h1]
  rw [if_neg h1] at h
  by_cases h2 : p.«class» = "named"
  · simp [VALID_PREDICTION_CLASSES, h2]
  rw [if_neg h2] at h
  by_cases h3 : p.«class» = "point"
  · simp [VALID_PREDICTION_CLASSES, h3]
  rw [if_neg h3] at h
  by_cases h4 : p.«class» = "sample"
  · simp [VALID_PREDICTION_CLASSES, h4]
  rw [if_neg h4] at h
  by_cases h5 : p.«class» = "quantile"
  · simp [VALID_PREDICTION_CLASSES, h5]
  rw [if_neg h5] at h
  exact absurd h (by simp)

/-- A well-formed entry succeeds and contributes exactly
`entryRowCount p` rows. -/
lemma rowsForPrediction_wf (p : PredictionDict) (h : wellFormedEntry p = true) :
    ∃ rs, rowsForPrediction p = .ok rs ∧ rs.length = entryRowCount p := by
  unfold wellFormedEntry at h
  by_cases hbin : p.«class» = "bin"
  · rw [if_pos hbin] at h
    split at h
    · rename_i cats probs hc hp
      refine ⟨_, rowsForPrediction_bin p cats probs hbin hc hp, ?_⟩
      have hlen : cats.length = probs.length := by simpa using h
      simp [entryRowCount, hbin, arrLen, hc, List.length_zip, hlen]
    · simp at h
  rw [if_neg hbin] at h
  by_cases hnamed : p.«class» = "named"
  · rw [if_pos hnamed] at h
    rcases hf : p.prediction.family with _ | family
    · rw [hf] at h; simp at h
    refine ⟨_, rowsForPrediction_named p family hnamed hf, ?_⟩
    simp [entryRowCount, hbin, hnamed]
  rw [if_neg hnamed] at h
  by_cases hpoint : p.«class» = "point"
  · rw [if_pos hpoint] at h
    rcases hv : p.prediction.value with _ | value
    · rw [hv] at h; simp at h
    refine ⟨_, rowsForPrediction_point p value hpoint hv, ?_⟩
    simp [entryRowCount, hbin, hnamed, hpoint]
  rw [if_neg hpoint] at h
  by_cases hsample : p.«class» = "sample"
  · rw [if_pos hsample] at h
    split at h
    · rename_i samples hs
      refine ⟨_, rowsForPrediction_sample p samples hsample hs, ?_⟩
      simp [entryRowCount, hbin, hnamed, hpoint, hsample, arrLen, hs]
    · simp at h
  rw [if_neg hsample] at h
  by_cases hquant : p.«class» = "quantile"
  · rw [if_pos hquant] at h
    split at h
    · rename_i quantiles values hq hv
      refine ⟨_, rowsForPrediction_quantile p quantiles values hquant hq hv, ?_⟩
      have hlen : quantiles.length = values.length := by simpa using h
      simp [entryRowCount, hbin, hnamed, hpoint, hsample, hquant, arrLen, hq,
        List.length_zip, hlen]
    · simp at h
  rw [if_neg hquant] at h
  simp at h

lemma csvRowsLoop_wf (preds : List PredictionDict)
    (h : ∀ p ∈ preds, wellFormedEntry p = true) :
    ∃ rows, csvRowsLoop preds = .ok rows ∧
      rows.length = (preds.map entryRowCount).sum := by
  induction preds with
  | nil => exact ⟨[], rfl, rfl⟩
  | cons p rest ih =>
    obtain ⟨rs, hrs, hlen⟩ := rowsForPrediction_wf p (h p (by simp))
    obtain ⟨rows, hrows, hlen2⟩ := ih (fun q hq => h q (by simp [hq]))
    refine ⟨rs ++ rows, ?_, ?_⟩
    · simp [csvRowsLoop, hrs, hrows]
    · simp [hlen, hlen2]

lemma csvRowsLoop_invalid (preds : List PredictionDict)
    (hall : ∀ p ∈ preds, wellFormedEntry p = true ∨ p.«class» ∉ VALID_PREDICTION_CLASSES)
    (hbad : ∃ p ∈ preds, p.«class» ∉ VALID_PREDICTION_CLASSES) :
    ∃ cls, csvRowsLoop preds = .error (.formatError cls) ∧
      cls ∉ VALID_PREDICTION_CLASSES ∧ ∃ p ∈ preds, p.«class» = cls := by
  induction preds with
  | nil => simp at hbad
  | cons p rest ih =>
    rcases hall p (by simp) with hwf | hbadp
    · obtain ⟨rs, hrs, _⟩ := rowsForPrediction_wf p hwf
      have hvalid := wellFormedEntry_class_valid p hwf
      have hbad' : ∃ q ∈ rest, q.«class» ∉ VALID_PREDICTION_CLASSES := by
        rcases hbad with ⟨q, hq, hqbad⟩
        rcases List.mem_cons.mp hq with rfl | hq'
        · exact absurd hvalid hqbad
        · exact ⟨q, hq', hqbad⟩
      obtain ⟨cls, hcls, hclsbad, q, hq, hqcls⟩ :=
        ih (fun q hq => hall q (by simp [hq])) hbad'
      exact ⟨cls, by simp [csvRowsLoop, hrs, hcls], hclsbad, q, by simp [hq], hqcls⟩
    · exact ⟨p.«class», by simp [csvRowsLoop, rowsForPrediction_invalid p hbadp],
        hbadp, p, by simp⟩

/-- C1: for every well-formed prediction set (each entry shaped per §4.4,
with `bin`/`quantile` payloads parallel arrays), the returned row
sequence starts with the 12-column header, and its total length is 1
(header) plus the sum over entries of: the number of categories for a
`bin` entry, the number of samples for a `sample` entry, the number of
quantiles for a `quantile` entry, and exactly 1 for a `point` or `named`
entry. -/
theorem csv_rows_header_and_row_count (d : JsonIoDict)
    (preds : List PredictionDict) (hd : d.predictions = some preds)
    (hwf : ∀ p ∈ preds, wellFormedEntry p = true) :
    ∃ rows, csv_rows_from_json_io_dict d = .ok rows ∧
      rows.head? = some CSV_HEADER ∧ CSV_HEADER.length = 12 ∧
      rows.length = 1 + (preds.map entryRowCount).sum := by
  obtain ⟨body, hbody, hlen⟩ := csvRowsLoop_wf preds hwf
  refine ⟨CSV_HEADER :: body, ?_, rfl, rfl, ?_⟩
  · simp [csv_rows_from_json_io_dict, hd, hbody]
  · show body.length + 1 = 1 + (preds.map entryRowCount).sum
    omega

/-- Witness for C1: a `bin` entry with two categories plus a `point`
entry yield a header row and 2 + 1 body rows. -/
theorem csv_rows_header_and_row_count_witness :
    ∃ rows,
      csv_rows_from_json_io_dict
        ⟨some
          [⟨J.str "loc1", J.str "pct next week", "bin",
            { cat := some (.arr [J.str "cat1", J.str "cat2"]),
              prob := some (.arr [J.int 0, J.int 1]) }⟩,
           ⟨J.str "loc2", J.str "cases next week", "point",
            { value := some (J.int 5) }⟩]⟩ = .ok rows ∧
      rows.head? = some CSV_HEADER ∧ CSV_HEADER.length = 12 ∧
      rows.length = 1 +
        (([⟨J.str "loc1", J.str "pct next week", "bin",
            { cat := some (.arr [J.str "cat1", J.str "cat2"]),
              prob := some (.arr [J.int 0, J.int 1]) }⟩,
           ⟨J.str "loc2", J.str "cases next week", "point",
            { value := some (J.int 5) }⟩] :
           List PredictionDict).map entryRowCount).sum :=
  csv_rows_header_and_row_count _ _ rfl (by decide)

/-- C2: if the input contains an entry whose class is outside
{bin, named, point, sample, quantile} (all other entries being
well-formed), the conversion fails with the format error naming the
offending class, and, the result being an error, returns no rows at all
(it does not skip the bad entry and continue). -/
theorem csv_rows_invalid_class_aborts (d : JsonIoDict)
    (preds : List PredictionDict) (hd : d.predictions = some preds)
    (hall : ∀ p ∈ preds, wellFormedEntry p = true ∨
      p.«class» ∉ VALID_PREDICTION_CLASSES)
    (hbad : ∃ p ∈ preds, p.«class» ∉ VALID_PREDICTION_CLASSES) :
    ∃ cls, csv_rows_from_json_io_dict d = .error (.formatError cls) ∧
      cls ∉ VALID_PREDICTION_CLASSES ∧ ∃ p ∈ preds, p.«class» = cls := by
  obtain ⟨cls, hcls, hbadc, hmem⟩ := csvRowsLoop_invalid preds hall hbad
  exact ⟨cls, by simp [csv_rows_from_json_io_dict, hd, hcls], hbadc, hmem⟩

/-- Witness for C2: a well-formed `point` entry followed by an entry of
class `"mean"` makes the whole conversion abort with the format error
for `"mean"`. -/
theorem csv_rows_invalid_class_aborts_witness :
    ∃ cls,
      csv_rows_from_json_io_dict
        ⟨some
          [⟨J.str "loc1", J.str "t", "point", { value := some (J.int 5) }⟩,
           ⟨J.str "loc2", J.str "t", "mean", {}⟩]⟩ =
        .error (.formatError cls) ∧
      cls ∉ VALID_PREDICTION_CLASSES ∧
      ∃ p ∈ ([⟨J.str "loc1", J.str "t", "point", { value := some (J.int 5) }⟩,
              ⟨J.str "loc2", J.str "t", "mean", {}⟩] : List PredictionDict),
        p.«class» = cls :=
  csv_rows_invalid_class_aborts _ _ rfl (by decide) (by decide)

/-- C10: an input dict with no `predictions` key fails with the
"no predictions section" error (raised before any row is built), so no
rows are emitted. -/
theorem csv_rows_missing_predictions_fails (d : JsonIoDict)
    (hd : d.predictions = none) :
    csv_rows_from_json_io_dict d = .error .noPredictions := by
  simp [csv_rows_from_json_io_dict, hd]

/-- Witness for C10. -/
theorem csv_rows_missing_predictions_fails_witness :
    csv_rows_from_json_io_dict ⟨none⟩ = .error .noPredictions :=
  csv_rows_missing_predictions_fails ⟨none⟩ rfl

/-- C9: the conversion is deterministic (two invocations on the same
input give equal results), the output is the header followed by the
first entry's rows and then the remaining entries' rows (source entry
order), and within one `bin` / `sample` / `quantile` entry the rows are
the in-order image of the source array(s) — no implicit sorting. -/
theorem csv_rows_deterministic_order_preserving (d : JsonIoDict)
    (p : PredictionDict) (rest : List PredictionDict) (rs restRows : List Row)
    (hd : d.predictions = some (p :: rest))
    (hp : rowsForPrediction p = .ok rs)
    (hrest : csvRowsLoop rest = .ok restRows) :
    csv_rows_from_json_io_dict d = csv_rows_from_json_io_dict d ∧
    csv_rows_from_json_io_dict d = .ok (CSV_HEADER :: (rs ++ restRows)) ∧
    (∀ cats probs, p.«class» = "bin" → p.prediction.cat = some (.arr cats) →
      p.prediction.prob = some (.arr probs) →
      rs = (cats.zip probs).map (binRow p)) ∧
    (∀ samples, p.«class» = "sample" →
      p.prediction.sample = some (.arr samples) →
      rs = samples.map (sampleRow p)) ∧
    (∀ quantiles values, p.«class» = "quantile" →
      p.prediction.quantile = some (.arr quantiles) →
      p.prediction.value = some (.arr values) →
      rs = (quantiles.zip values).map (quantileRow p)) := by
  refine ⟨rfl, ?_, ?_, ?_, ?_⟩
  · simp [csv_rows_from_json_io_dict, hd, csvRowsLoop, hp, hrest]
  · intro cats probs h1 h2 h3
    have hb := rowsForPrediction_bin p cats probs h1 h2 h3
    rw [hp] at hb
    exact Except.ok.inj hb
  · intro samples h1 h2
    have hb := rowsForPrediction_sample p samples h1 h2
    rw [hp] at hb
    exact Except.ok.inj hb
  · intro quantiles values h1 h2 h3
    have hb := rowsForPrediction_quantile p quantiles values h1 h2 h3
    rw [hp] at hb
    exact Except.ok.inj hb

/-- Witness for C9: a one-entry `sample` prediction set, with its two
rows in source array order. -/
theorem csv_rows_deterministic_order_preserving_witness :
    csv_rows_from_json_io_dict
      ⟨some [⟨J.str "loc1", J.str "t", "sample",
        { sample := some (.arr [J.int 3, J.int 1]) }⟩]⟩ =
      .ok (CSV_HEADER ::
        (([J.int 3, J.int 1].map
          (sampleRow ⟨J.str "loc1", J.str "t", "sample",
            { sample := some (.arr [J.int 3, J.int 1]) }⟩)) ++ [])) :=
  (csv_rows_deterministic_order_preserving _ _ [] _ [] rfl
    (rowsForPrediction_sample _ _ rfl rfl) rfl).2.1

/-!
## `zoltpy/connection.py`
-/

/-- Errors raised (or propagated) in `connection.py`.  As in `CsvError`,
each constructor stands for one raise site (`RuntimeError` with a
message) or one implicit Python exception, carrying the data of its
message. -/
inductive ConnError where
  | noSession
  | httpError (status_code : Nat) (text : String)
  | validationError (expected actual : List String)
  | keyError (key : String)
  | statusKeyError (status : J)
  | attributeError (attr : String)
  | indexError
  | valueError (s : String)

/-- Python `uri.split(sep)` for a one-character separator, acting on the
character list of the string: split at every occurrence of `sep`,
keeping empty pieces (so the result is always nonempty). -/
def pySplit (sep : Char) : List Char → List (List Char)
  | [] => [[]]
  | c :: rest =>
    if c = sep then [] :: pySplit sep rest
    else
      match pySplit sep rest with
      | [] => [[c]]
      | piece :: pieces => (c :: piece) :: pieces

/-- Value of a list of decimal digit characters, most significant
first. -/
def digitsVal (l : List Char) : Nat :=
  l.foldl (fun a c => 10 * a + (c.toNat - 48)) 0

/-- Modelled: the digit-run part of Python `int()` — a nonempty run of
decimal digits (the whitespace/underscore forms `int()` also accepts are
not modelled; no property proved here involves them). -/
def parseDigits (l : List Char) : Option Nat :=
  if l ≠ [] ∧ l.all Char.isDigit then some (digitsVal l) else none

/-- Modelled: Python `int()` on an optionally signed run of decimal
digits; `none` is a `ValueError`. -/
def pyInt (l : List Char) : Option Int :=
  match l with
  | '-' :: rest => (parseDigits rest).map (fun n => -(n : Int))
  | '+' :: rest => (parseDigits rest).map (fun n => (n : Int))
  | _ => (parseDigits l).map (fun n => (n : Int))

/-- `ZoltarResource.id_for_uri`: split the locator on `/`, drop the
empty components, and parse the last remaining component as an integer.
Indexing `[-1]` into an empty list is an `IndexError`; a non-numeric
component is a `ValueError` from `int()`. -/
def id_for_uri (uri : String) : Except ConnError Int :=
  let url_split := (pySplit '/' uri.data).filter (fun s => !s.isEmpty)
  match url_split.getLast? with
  | none => .error .indexError
  | some last =>
    match pyInt last with
    | some n => .ok n
    | none => .error (.valueError (String.mk last))

lemma pySplit_ne_nil (sep : Char) (l : List Char) : pySplit sep l ≠ [] := by
  cases l with
  | nil => simp [pySplit]
  | cons c rest =>
    unfold pySplit
    split
    · simp
    · split <;> simp

lemma pySplit_append_sep (sep : Char) (a b : List Char) :
    pySplit sep (a ++ sep :: b) = pySplit sep a ++ pySplit sep b := by
  induction a with
  | nil => simp [pySplit]
  | cons c a ih =>
    by_cases hc : c = sep
    · subst hc
      have h1 : pySplit c ((c :: a) ++ c :: b) = [] :: pySplit c (a ++ c :: b) := by
        simp [pySplit]
      have h2 : pySplit c (c :: a) = [] :: pySplit c a := by
        simp [pySplit]
      rw [h1, h2, ih]
      simp
    · obtain ⟨p, ps, hp⟩ : ∃ p ps, pySplit sep a = p :: ps := by
        cases h : pySplit sep a with
        | nil => exact absurd h (pySplit_ne_nil sep a)
        | cons p ps => exact ⟨p, ps, rfl⟩
      simp only [List.cons_append, pySplit, if_neg hc, hp, List.append_eq]
      rw [ih, hp]
      simp

lemma pySplit_no_sep (sep : Char) (l : List Char) (h : sep ∉ l) :
    pySplit sep l = [l] := by
  induction l with
  | nil => rfl
  | cons c rest ih =>
    have hc : ¬ c = sep := by
      intro hcc
      exact h (by simp [hcc])
    have hr : sep ∉ rest := fun hm => h (by simp [hm])
    simp only [pySplit, if_neg hc, ih hr]

lemma pySplit_replicate_sep (sep : Char) (k : Nat) :
    pySplit sep (List.replicate k sep) = List.replicate (k+1) [] := by
  induction k with
  | zero => rfl
  | succ k ih =>
    rw [List.replicate_succ]
    simp only [pySplit, if_pos rfl, ih]
    simp [List.replicate_succ]

lemma digitChar_toNat_sub (n : Nat) (h : n < 10) :
    (Nat.digitChar n).toNat - 48 = n := by
  interval_cases n <;> decide

lemma digitChar_isDigit (n : Nat) (h : n < 10) :
    (Nat.digitChar n).isDigit = true := by
  interval_cases n <;> decide

lemma foldl_digits_shift (l : List Char) (a : Nat) :
    l.foldl (fun x c => 10 * x + (c.toNat - 48)) a =
      a * 10 ^ l.length + digitsVal l := by
  induction l generalizing a with
  | nil => simp [digitsVal]
  | cons c rest ih =>
    show rest.foldl _ (10 * a + (c.toNat - 48)) = _
    rw [ih]
    have hcons : digitsVal (c :: rest) =
        (c.toNat - 48) * 10 ^ rest.length + digitsVal rest := by
      show rest.foldl _ (10 * 0 + (c.toNat - 48)) = _
      rw [ih]
      ring_nf
    rw [List.length_cons, hcons, pow_succ]
    ring

lemma digitsVal_cons (c : Char) (rest : List Char) :
    digitsVal (c :: rest) = (c.toNat - 48) * 10 ^ rest.length + digitsVal rest := by
  show rest.foldl _ (10 * 0 + (c.toNat - 48)) = _
  rw [foldl_digits_shift]
  ring_nf

lemma toDigitsCore_all_digits :
    ∀ (fuel n : Nat) (ds : List Char), ds.all Char.isDigit = true →
      (Nat.toDigitsCore 10 fuel n ds).all Char.isDigit = true := by
  intro fuel
  induction fuel with
  | zero =>
    intro n ds h
    simpa [Nat.toDigitsCore] using h
  | succ fuel ih =>
    intro n ds h
    have hd : (Nat.digitChar (n % 10)).isDigit = true :=
      digitChar_isDigit (n % 10) (Nat.mod_lt _ (by norm_num))
    simp only [Nat.toDigitsCore]
    split
    · simp only [List.all_cons, hd, Bool.true_and]
      exact h
    · exact ih _ _ (by simp only [List.all_cons, hd, Bool.true_and]; exact h)

lemma toDigitsCore_succ_ne_nil :
    ∀ (fuel n : Nat) (ds : List Char), Nat.toDigitsCore 10 (fuel+1) n ds ≠ [] := by
  intro fuel
  induction fuel with
  | zero =>
    intro n ds
    simp only [Nat.toDigitsCore]
    split
    · simp
    · simp [Nat.toDigitsCore]
  | succ fuel ih =>
    intro n ds
    simp only [Nat.toDigitsCore]
    split
    · simp
    · exact ih _ _

lemma toDigitsCore_val :
    ∀ (fuel n : Nat) (ds : List Char), n < fuel →
      digitsVal (Nat.toDigitsCore 10 fuel n ds) =
        n * 10 ^ ds.length + digitsVal ds := by
  intro fuel
  induction fuel with
  | zero => omega
  | succ fuel ih =>
    intro n ds hn
    have hd : (Nat.digitChar (n % 10)).toNat - 48 = n % 10 :=
      digitChar_toNat_sub (n % 10) (Nat.mod_lt _ (by norm_num))
    simp only [Nat.toDigitsCore]
    split
    · rename_i h0
      rw [digitsVal_cons, hd]
      have hn10 : n = n % 10 := by omega
      rw [← hn10]
    · rename_i h0
      have hfuel : n / 10 < fuel := by omega
      rw [ih (n / 10) _ hfuel, List.length_cons, digitsVal_cons, hd, pow_succ]
      have hmod := Nat.div_add_mod n 10
      nlinarith [pow_pos (by norm_num : (0:Nat) < 10) ds.length]

lemma repr_data_eq (n : Nat) : (Nat.repr n).data = Nat.toDigitsCore 10 (n+1) n [] := rfl

lemma repr_data_all_digits (n : Nat) : ((Nat.repr n).data).all Char.isDigit = true := by
  rw [repr_data_eq]
  exact toDigitsCore_all_digits (n+1) n [] rfl

lemma repr_data_ne_nil (n : Nat) : (Nat.repr n).data ≠ [] := by
  rw [repr_data_eq]
  exact toDigitsCore_succ_ne_nil n n []

lemma parseDigits_repr (n : Nat) : parseDigits (Nat.repr n).data = some n := by
  have hval : digitsVal (Nat.repr n).data = n := by
    rw [repr_data_eq]
    have := toDigitsCore_val (n+1) n [] (by omega)
    simpa [digitsVal] using this
  simp [parseDigits, repr_data_ne_nil n, repr_data_all_digits n, hval]

lemma pyInt_repr (n : Nat) : pyInt (Nat.repr n).data = some (n : Int) := by
  obtain ⟨c, cs, hc⟩ : ∃ c cs, (Nat.repr n).data = c :: cs := by
    cases h : (Nat.repr n).data with
    | nil => exact absurd h (repr_data_ne_nil n)
    | cons c cs => exact ⟨c, cs, rfl⟩
  have hdig : c.isDigit = true := by
    have := repr_data_all_digits n
    rw [hc] at this
    exact (List.all_cons .. ▸ this |> Bool.and_elim_left)
  have hcm : c ≠ '-' := by
    intro h
    rw [h] at hdig
    exact absurd hdig (by decide)
  have hcp : c ≠ '+' := by
    intro h
    rw [h] at hdig
    exact absurd hdig (by decide)
  rw [hc]
  have hback : parseDigits (c :: cs) = some n := hc ▸ parseDigits_repr n
  unfold pyInt
  split
  · rename_i rest heq
    exact absurd (List.cons.inj heq).1 hcm
  · rename_i rest heq
    exact absurd (List.cons.inj heq).1 hcp
  · simp [hback]

/-- C3: for every locator whose last non-empty `/`-separated segment is
the decimal numeral of `N` — an arbitrary prefix, then `/`, then the
numeral, then `k ≥ 0` trailing slashes (so both with and without a
trailing slash, and with empty segments anywhere) — `id_for_uri`
returns `N`. -/
theorem id_for_uri_trailing_int (pre : List Char) (N k : Nat) :
    id_for_uri (String.mk (pre ++ '/' :: ((Nat.repr N).data ++ List.replicate k '/'))) =
      .ok (N : Int) := by
  have hnos : '/' ∉ (Nat.repr N).data := by
    intro hmem
    have := List.all_eq_true.mp (repr_data_all_digits N) _ hmem
    exact absurd this (by decide)
  have htail : pySplit '/' ((Nat.repr N).data ++ List.replicate k '/') =
      (Nat.repr N).data :: List.replicate k [] := by
    cases k with
    | zero => simp [pySplit_no_sep '/' _ hnos]
    | succ k =>
      rw [List.replicate_succ, pySplit_append_sep, pySplit_no_sep '/' _ hnos,
        pySplit_replicate_sep]
      simp [List.replicate_succ]
  have hsplit : pySplit '/' (pre ++ '/' :: ((Nat.repr N).data ++ List.replicate k '/')) =
      pySplit '/' pre ++ ((Nat.repr N).data :: List.replicate k []) := by
    rw [pySplit_append_sep, htail]
  have hfilterrep : (List.replicate k ([] : List Char)).filter (fun s => !s.isEmpty) = [] := by
    induction k with
    | zero => rfl
    | succ k ih => rw [List.replicate_succ, List.filter_cons]; simp [ih]
  unfold id_for_uri
  rw [show (String.mk (pre ++ '/' :: ((Nat.repr N).data ++ List.replicate k '/'))).data =
    pre ++ '/' :: ((Nat.repr N).data ++ List.replicate k '/') from rfl]
  rw [hsplit, List.filter_append, List.filter_cons]
  have hne : ((Nat.repr N).data.isEmpty : Bool) = false := by
    cases h : (Nat.repr N).data with
    | nil => exact absurd h (repr_data_ne_nil N)
    | cons c cs => rfl
  rw [hne]
  simp only [Bool.not_false, if_true, hfilterrep]
  rw [List.getLast?_concat]
  simp [pyInt_repr N]

/-- Witness for C3: `"http://example.com/api/forecast/71/"` resolves to
id `71`. -/
theorem id_for_uri_trailing_int_witness :
    id_for_uri (String.mk ("http://example.com/api/forecast".data ++
      '/' :: ((Nat.repr 71).data ++ List.replicate 1 '/'))) = .ok (71 : Int) :=
  id_for_uri_trailing_int "http://example.com/api/forecast".data 71 1

/-- `ZoltarResource`: a resource proxy is its URI plus the cached JSON
snapshot `_json` (`none` is Python `None`, i.e. not yet fetched). -/
structure ZoltarResource where
  uri : String
  _json : Option J

/-- `ZoltarResource.refresh`: fetch via the owning connection
(`fetch` stands for `zoltar_connection.json_for_uri`) and overwrite the
cache.  If the fetch raises, the assignment to `self._json` never
executes, so the previous cache is kept. -/
def ZoltarResource.refresh (fetch : String → Except ConnError J)
    (r : ZoltarResource) : Except ConnError J × ZoltarResource :=
  match fetch r.uri with
  | .ok j => (.ok j, { r with _json := some j })
  | .error e => (.error e, r)

/-- The `json` property:
`return self._json if self._json else self.refresh()` — note the Python
truthiness test on the cached value, not an `is not None` test.  The
`Nat` component counts the fetches performed by this one access. -/
def ZoltarResource.json (fetch : String → Except ConnError J)
    (r : ZoltarResource) : (Except ConnError J × ZoltarResource) × Nat :=
  match r._json with
  | some j => if pyTruthy j then ((.ok j, r), 0) else (r.refresh fetch, 1)
  | none => (r.refresh fetch, 1)

/-- Counterexample to C4 as stated: when the server's JSON for the
resource is falsy (here the empty object `{}` — `J.obj []`), the first
access fetches and caches it, but the second access performs a further
fetch (1, not 0), because the cache test is Python truthiness rather
than an `is not None` test. -/
theorem json_zero_further_fetches_counterexample :
    (ZoltarResource.json (fun _ => .ok (J.obj []))
      (((ZoltarResource.json (fun _ => .ok (J.obj []))
        ⟨"http://example.com/api/project/1/", none⟩).1).2)).2 ≠ 0 := by
  decide

/-- C4 (amended): a freshly constructed proxy with no pre-seeded
snapshot triggers exactly one fetch on first `json` access; provided the
fetched snapshot is truthy (non-empty), every subsequent access performs
zero further fetches and returns the cached value, until `refresh()` is
called. -/
theorem json_fetch_once_then_cached (fetch : String → Except ConnError J)
    (r : ZoltarResource) (j : J) (h0 : r._json = none)
    (hfetch : fetch r.uri = .ok j) (htruthy : pyTruthy j = true) :
    ZoltarResource.json fetch r = ((.ok j, { r with _json := some j }), 1) ∧
    ZoltarResource.json fetch { r with _json := some j } =
      ((.ok j, { r with _json := some j }), 0) := by
  constructor
  · simp [ZoltarResource.json, h0, ZoltarResource.refresh, hfetch]
  · simp [ZoltarResource.json, htruthy]

/-- Witness for C4 (amended): a fresh proxy and a truthy fetched
object. -/
theorem json_fetch_once_then_cached_witness :
    ZoltarResource.json (fun _ => .ok (J.obj [("name", J.str "p")]))
        ⟨"http://example.com/api/project/1/", none⟩ =
      ((.ok (J.obj [("name", J.str "p")]),
        ⟨"http://example.com/api/project/1/", some (J.obj [("name", J.str "p")])⟩), 1) ∧
    ZoltarResource.json (fun _ => .ok (J.obj [("name", J.str "p")]))
        ⟨"http://example.com/api/project/1/", some (J.obj [("name", J.str "p")])⟩ =
      ((.ok (J.obj [("name", J.str "p")]),
        ⟨"http://example.com/api/project/1/", some (J.obj [("name", J.str "p")])⟩), 0) :=
  json_fetch_once_then_cached (fun _ => .ok (J.obj [("name", J.str "p")]))
    ⟨"http://example.com/api/project/1/", none⟩ (J.obj [("name", J.str "p")])
    rfl rfl rfl

/-- C6: if the fetch fails, the previously cached snapshot is left
unchanged — both under an explicit `refresh()` and under a read-through
`json` access (the Python exception propagates before the assignment to
`self._json`). -/
theorem failed_fetch_preserves_cache (fetch : String → Except ConnError J)
    (r : ZoltarResource) (e : ConnError) (hfetch : fetch r.uri = .error e) :
    (r.refresh fetch).2 = r ∧ ((ZoltarResource.json fetch r).1).2 = r := by
  constructor
  · simp [ZoltarResource.refresh, hfetch]
  · rcases h : r._json with _ | j
    · simp [ZoltarResource.json, h, ZoltarResource.refresh, hfetch]
    · by_cases ht : pyTruthy j
      · simp [ZoltarResource.json, h, ht]
      · simp [ZoltarResource.json, h, ht, ZoltarResource.refresh, hfetch]

/-- Witness for C6: a proxy with a cached snapshot and a fetch that
fails with HTTP 500 keeps its snapshot. -/
theorem failed_fetch_preserves_cache_witness :
    ((ZoltarResource.refresh (fun _ => .error (.httpError 500 "oops"))
        ⟨"http://example.com/api/project/1/", some (J.obj [("name", J.str "p")])⟩).2 =
      ⟨"http://example.com/api/project/1/", some (J.obj [("name", J.str "p")])⟩) ∧
    (((ZoltarResource.json (fun _ => .error (.httpError 500 "oops"))
        ⟨"http://example.com/api/project/1/", some (J.obj [("name", J.str "p")])⟩).1).2 =
      ⟨"http://example.com/api/project/1/", some (J.obj [("name", J.str "p")])⟩) :=
  failed_fetch_preserves_cache (fun _ => .error (.httpError 500 "oops"))
    ⟨"http://example.com/api/project/1/", some (J.obj [("name", J.str "p")])⟩
    (.httpError 500 "oops") rfl

/-- `ZoltarSession` after construction: the token obtained by
`_get_token` (the back-reference to the connection carries no state
needed here). -/
structure ZoltarSession where
  token : String

/-- `ZoltarSession.is_token_expired`: the source constantly returns
`True` (`return True  # todo xx fix!`). -/
def ZoltarSession.is_token_expired (_s : ZoltarSession) : Bool := true

/-- `ZoltarConnection` state: host, stored credentials, current
session. -/
structure ZoltarConnection where
  host : String
  username : Option String
  password : Option String
  session : Option ZoltarSession

/-- `ZoltarConnection.authenticate`: store the credentials, then build a
new `ZoltarSession`, whose constructor POSTs to the token endpoint —
`get_token` stands for `ZoltarSession._get_token`, taking the host and
the (just stored) credentials.  If the POST raises, the credentials have
already been overwritten but the old session is kept. -/
def ZoltarConnection.authenticate
    (get_token : String → Option String → Option String → Except ConnError String)
    (c : ZoltarConnection) (username password : Option String) :
    Except ConnError Unit × ZoltarConnection :=
  let c1 := { c with username := username, password := password }
  match get_token c.host username password with
  | .ok tok => (.ok (), { c1 with session := some ⟨tok⟩ })
  | .error e => (.error e, c1)

/-- `ZoltarConnection.re_authenticate_if_necessary`: if the session's
token is expired, re-run `authenticate` with the stored credentials.
With no session, `None.is_token_expired()` is a Python
`AttributeError`. -/
def ZoltarConnection.re_authenticate_if_necessary
    (get_token : String → Option String → Option String → Except ConnError String)
    (c : ZoltarConnection) : Except ConnError Unit × ZoltarConnection :=
  match c.session with
  | none => (.error (.attributeError "is_token_expired"), c)
  | some s =>
    if s.is_token_expired then c.authenticate get_token c.username c.password
    else (.ok (), c)

/-- C7: `is_token_expired` returns `True` for every session, so
`re_authenticate_if_necessary` on a connection holding a session always
re-runs `authenticate` with the stored credentials, and (when the token
exchange succeeds) replaces the session and its token. -/
theorem always_expired_always_reauthenticates
    (get_token : String → Option String → Option String → Except ConnError String)
    (c : ZoltarConnection) (s : ZoltarSession) (hs : c.session = some s) :
    s.is_token_expired = true ∧
    c.re_authenticate_if_necessary get_token =
      c.authenticate get_token c.username c.password ∧
    (∀ tok, get_token c.host c.username c.password = .ok tok →
      (c.re_authenticate_if_necessary get_token).2.session = some ⟨tok⟩) := by
  refine ⟨rfl, ?_, ?_⟩
  · simp [ZoltarConnection.re_authenticate_if_necessary, hs,
      ZoltarSession.is_token_expired]
  · intro tok htok
    simp [ZoltarConnection.re_authenticate_if_necessary, hs,
      ZoltarSession.is_token_expired, ZoltarConnection.authenticate, htok]

/-- Witness for C7: a connection with stored credentials and an old
session; the exchange returns a new token and the session is
replaced. -/
theorem always_expired_always_reauthenticates_witness :
    (ZoltarSession.is_token_expired ⟨"old-token"⟩ = true) ∧
    (ZoltarConnection.re_authenticate_if_necessary (fun _ _ _ => .ok "new-token")
        ⟨"https://zoltardata.com", some "u", some "p", some ⟨"old-token"⟩⟩ =
      ZoltarConnection.authenticate (fun _ _ _ => .ok "new-token")
        ⟨"https://zoltardata.com", some "u", some "p", some ⟨"old-token"⟩⟩
        (some "u") (some "p")) ∧
    ((ZoltarConnection.re_authenticate_if_necessary (fun _ _ _ => .ok "new-token")
        ⟨"https://zoltardata.com", some "u", some "p", some ⟨"old-token"⟩⟩).2.session =
      some ⟨"new-token"⟩) :=
  have h := always_expired_always_reauthenticates (fun _ _ _ => .ok "new-token")
    ⟨"https://zoltardata.com", some "u", some "p", some ⟨"old-token"⟩⟩
    ⟨"old-token"⟩ rfl
  ⟨h.1, h.2.1, h.2.2 "new-token" rfl⟩

/-- `UploadFileJob.STATUS_ID_TO_STR`: the fixed dict from status code to
status name, modelled as the corresponding finite map. -/
def STATUS_ID_TO_STR (status : Int) : Option String :=
  if status = 0 then some "PENDING"
  else if status = 1 then some "CLOUD_FILE_UPLOADED"
  else if status = 2 then some "QUEUED"
  else if status = 3 then some "CLOUD_FILE_DOWNLOADED"
  else if status = 4 then some "SUCCESS"
  else if status = 5 then some "FAILED"
  else none

/-- `UploadFileJob.status_as_str`: read `self.json['status']` (through
the lazy `json` property) and index `STATUS_ID_TO_STR` with it; a status
outside the table is a Python `KeyError` on the dict (the spec's
FormatError for status codes).  Python numeric-equality corner cases for
non-integer keys (e.g. `True == 1`) are modelled as the same
`KeyError`. -/
def UploadFileJob.status_as_str (fetch : String → Except ConnError J)
    (r : ZoltarResource) : (Except ConnError String × ZoltarResource) × Nat :=
  match ZoltarResource.json fetch r with
  | ((jres, r1), fetches) =>
    match jres with
    | .error e => ((.error e, r1), fetches)
    | .ok j =>
      match jGet j "status" with
      | none => ((.error (.keyError "status"), r1), fetches)
      | some (J.int status_int) =>
        match STATUS_ID_TO_STR status_int with
        | some s => ((.ok s, r1), fetches)
        | none => ((.error (.statusKeyError (J.int status_int)), r1), fetches)
      | some other => ((.error (.statusKeyError other), r1), fetches)

/-- C8: on a job whose (cached, truthy) snapshot has an integer `status`
field `n`, `status_as_str` returns the name under the 1:1 table
{0 PENDING, 1 CLOUD_FILE_UPLOADED, 2 QUEUED, 3 CLOUD_FILE_DOWNLOADED,
4 SUCCESS, 5 FAILED}, and fails with the status lookup error for every
other integer. -/
theorem status_as_str_mapping (fetch : String → Except ConnError J)
    (r : ZoltarResource) (j : J) (n : Int)
    (hj : r._json = some j) (ht : pyTruthy j = true)
    (hstatus : jGet j "status" = some (J.int n)) :
    ((UploadFileJob.status_as_str fetch r).1).1 =
      (if n = 0 then .ok "PENDING"
       else if n = 1 then .ok "CLOUD_FILE_UPLOADED"
       else if n = 2 then .ok "QUEUED"
       else if n = 3 then .ok "CLOUD_FILE_DOWNLOADED"
       else if n = 4 then .ok "SUCCESS"
       else if n = 5 then .ok "FAILED"
       else .error (.statusKeyError (J.int n))) := by
  have hjson : ZoltarResource.json fetch r = ((.ok j, r), 0) := by
    simp [ZoltarResource.json, hj, ht]
  unfold UploadFileJob.status_as_str
  rw [hjson]
  simp only [hstatus, STATUS_ID_TO_STR]
  split_ifs <;> rfl

/-- Witness for C8: a job snapshot with `status = 4` reports
`SUCCESS`. -/
theorem status_as_str_mapping_witness :
    ((UploadFileJob.status_as_str (fun _ => .error .noSession)
        ⟨"http://example.com/api/uploadfilejob/2/",
         some (J.obj [("status", J.int 4)])⟩).1).1 =
      (if (4 : Int) = 0 then .ok "PENDING"
       else if (4 : Int) = 1 then .ok "CLOUD_FILE_UPLOADED"
       else if (4 : Int) = 2 then .ok "QUEUED"
       else if (4 : Int) = 3 then .ok "CLOUD_FILE_DOWNLOADED"
       else if (4 : Int) = 4 then .ok "SUCCESS"
       else if (4 : Int) = 5 then .ok "FAILED"
       else .error (.statusKeyError (J.int 4))) :=
  status_as_str_mapping (fun _ => .error .noSession)
    ⟨"http://example.com/api/uploadfilejob/2/", some (J.obj [("status", J.int 4)])⟩
    (J.obj [("status", J.int 4)]) 4 rfl rfl rfl

/-- One `POST` of the transport collaborator: status code, body text,
and parsed JSON body. -/
structure PostResponse where
  status_code : Nat
  text : String
  body : J

/-- Python `str()` rendering of a JSON value, used only to build the new
model's URL from its `id`.  Containers are approximated (no property
proved here depends on their rendering). -/
def jFormat : J → String
  | .null => "None"
  | .bool b => if b then "True" else "False"
  | .int n => toString n
  | .str s => s
  | .arr _ => "[...]"
  | .obj _ => "\x7b...\x7d"

/-- The expected key set of `model_config` in `Project.create_model`. -/
def MODEL_CONFIG_KEYS : List String :=
  ["name", "abbreviation", "team_name", "description", "home_url", "aux_data_url"]

/-- `Project.create_model`: validate that the key set of `model_config`
is exactly the expected set, then POST `{'model_config': ...}` to
`{uri}models/` and wrap the response as a Model resource at
`{host}/api/model/{pk}` pre-seeded with the response body.  `post` is
the transport collaborator; the second component of the result lists the
URLs actually POSTed, so "no network request was issued" is `[]`. -/
def Project.create_model (post : String → J → PostResponse) (host uri : String)
    (model_config : List (String × J)) :
    Except ConnError ZoltarResource × List String :=
  let actual_keys := model_config.map Prod.fst
  if actual_keys.toFinset ≠ MODEL_CONFIG_KEYS.toFinset then
    (.error (.validationError MODEL_CONFIG_KEYS actual_keys), [])
  else
    let url := uri ++ "models/"
    let response := post url (J.obj [("model_config", J.obj model_config)])
    if response.status_code ≠ 200 then
      (.error (.httpError response.status_code response.text), [url])
    else
      match jGet response.body "id" with
      | none => (.error (.keyError "id"), [url])
      | some pk =>
        (.ok ⟨host ++ "/api/model/" ++ jFormat pk, some response.body⟩, [url])

/-- C5: whenever the key set of `model_config` differs from the expected
set (too many, too few, or any one required key missing), `create_model`
fails with the validation error carrying expected and actual keys, and
the list of POSTs issued is empty — it fails before any network
request. -/
theorem create_model_wrong_keys_no_request (post : String → J → PostResponse)
    (host uri : String) (model_config : List (String × J))
    (h : (model_config.map Prod.fst).toFinset ≠ MODEL_CONFIG_KEYS.toFinset) :
    Project.create_model post host uri model_config =
      (.error (.validationError MODEL_CONFIG_KEYS (model_config.map Prod.fst)), []) := by
  simp [Project.create_model, h]

/-- Witness for C5: a configuration missing the required `name` key is
rejected with no POST issued. -/
theorem create_model_wrong_keys_no_request_witness :
    Project.create_model (fun _ _ => ⟨200, "", J.obj [("id", J.int 7)]⟩)
        "https://zoltardata.com" "https://zoltardata.com/api/project/1/"
        [("abbreviation", J.str "m"), ("team_name", J.str "t"),
         ("description", J.str "d"), ("home_url", J.str "h"),
         ("aux_data_url", J.str "a")] =
      (.error (.validationError MODEL_CONFIG_KEYS
        (([("abbreviation", J.str "m"), ("team_name", J.str "t"),
           ("description", J.str "d"), ("home_url", J.str "h"),
           ("aux_data_url", J.str "a")] : List (String × J)).map Prod.fst)), []) :=
  create_model_wrong_keys_no_request (fun _ _ => ⟨200, "", J.obj [("id", J.int 7)]⟩)
    "https://zoltardata.com" "https://zoltardata.com/api/project/1/"
    [("abbreviation", J.str "m"), ("team_name", J.str "t"),
     ("description", J.str "d"), ("home_url", J.str "h"),
     ("aux_data_url", J.str "a")] (by decide)
